import Mathlib

namespace Acp

/-- JSON values as handled by serde_json: the wire data model of the protocol.
Numbers appearing in the claims' scope are unsigned machine integers
(`u64` tool-call ids, `u32` line numbers), modelled as `Nat`. -/
inductive Json where
  | null
  | bool (b : Bool)
  | num (n : Nat)
  | str (s : String)
  | arr (elems : List Json)
  | obj (fields : List (String × Json))

/-- Field lookup in a JSON object, as a serde-derived struct deserializer sees it:
a known field occurring twice is a "duplicate field" error, a known field
occurring once yields its value, an absent field yields `none`.  Unknown and
duplicate unknown fields are ignored by serde's derived deserializers, which
this lookup-based model reproduces because callers only query known names. -/
def getField (fs : List (String × Json)) (name : String) : Except String (Option Json) :=
  match fs.filter (fun p => p.1 == name) with
  | [] => .ok none
  | [p] => .ok (some p.2)
  | _ => .error (String.append "duplicate field " name)

/-- Decoding a JSON value as a Rust `String` (or `PathBuf`, which serializes as
its UTF-8 string form): only a JSON string is accepted. -/
def decodeString : Json → Except String String
  | .str s => .ok s
  | _ => .error "invalid type: expected string"

/-- Decoding an optional struct field of type `Option String`: an absent field or
a JSON `null` is `none` (serde treats `Option` fields as defaulting to `None`
when missing, and `Option::deserialize` maps `null` to `None`); a string is
`some`; anything else is a type error. -/
def decodeOptString : Option Json → Except String (Option String)
  | none => .ok none
  | some .null => .ok none
  | some (.str s) => .ok (some s)
  | some _ => .error "invalid type: expected string or null"

/-- Reading a required struct field already looked up with `getField`:
missing is a "missing field" error, otherwise the field's own decoder runs. -/
def fieldReq {α : Type} (f : Json → Except String α) (fv : Option Json) (name : String) :
    Except String α :=
  match fv with
  | some v => f v
  | none => .error (String.append "missing field " name)

/-- Reading an optional struct field of type `Option T` already looked up with
`getField`: missing or `null` is `none`, otherwise `T`'s decoder runs. -/
def fieldOpt {α : Type} (f : Json → Except String α) (fv : Option Json) :
    Except String (Option α) :=
  match fv with
  | none => .ok none
  | some .null => .ok none
  | some v =>
    match f v with
    | .ok a => .ok (some a)
    | .error e => .error e

/-- Whether a JSON value is an object. -/
def Json.isObj : Json → Bool
  | .obj _ => true
  | _ => false

/-- Modelled from the spec: the protocol error taxonomy of §7.  The defining
module of `crate::ErrorCode` (four JSON-RPC-style codes) is not among the
provided sources; only its four constants are used by `schema.rs`. -/
inductive ErrorCode where
  | parseError
  | methodNotFound
  | internalError
  | invalidRequest
deriving DecidableEq

/-- Modelled from the spec: `crate::Error`, a protocol error carrying a code and
an optional free-text detail string (§7: "a numeric code and free-text
detail").  Its defining module is not among the provided sources. -/
structure Error where
  code : ErrorCode
  details : Option String
deriving DecidableEq

/-- Rust `ErrorCode::into()` conversion used as `METHOD_NOT_FOUND.into()`:
an error with the given code and no details. -/
def ErrorCode.intoError (c : ErrorCode) : Error := ⟨c, none⟩

/-- Rust `ErrorCode::into_error_with_details`: an error with the given code and
the given detail string. -/
def ErrorCode.intoErrorWithDetails (c : ErrorCode) (d : String) : Error := ⟨c, some d⟩

namespace Content

/-- The sender or recipient of messages and data in a conversation
(`content.rs`, `Role`). -/
inductive Role where
  | Assistant
  | User

/-- Optional annotations for the client (`content.rs`, `Annotations`).
The `priority` field is an `f64` in the source, modelled as `Float`. -/
structure Annotations where
  audience : Option (List Role)
  lastModified : Option String
  priority : Option Float

/-- Text provided to or from an LLM (`content.rs`, `TextContent`). -/
structure TextContent where
  annotations : Option Annotations
  text : String

/-- An image provided to or from an LLM (`content.rs`, `ImageContent`). -/
structure ImageContent where
  annotations : Option Annotations
  data : String
  mimeType : String
  uri : Option String

/-- Audio provided to or from an LLM (`content.rs`, `AudioContent`). -/
structure AudioContent where
  annotations : Option Annotations
  data : String
  mimeType : String

/-- Text-based resource contents (`content.rs`, `TextResourceContents`):
fields `mime_type` (optional, wire name "mimeType"), `text`, `uri`. -/
structure TextResourceContents where
  mimeType : Option String
  text : String
  uri : String

/-- Binary resource contents (`content.rs`, `BlobResourceContents`):
fields `blob`, `mime_type` (optional, wire name "mimeType"), `uri`. -/
structure BlobResourceContents where
  blob : String
  mimeType : Option String
  uri : String

/-- Resource content that can be embedded in a message (`content.rs`,
`EmbeddedResourceResource`): a `serde(untagged)` union of the Text-resource
and Blob-resource shapes, in that declaration order. -/
inductive EmbeddedResourceResource where
  | TextResourceContents (v : TextResourceContents)
  | BlobResourceContents (v : BlobResourceContents)

/-- The contents of a resource, embedded into a prompt or tool call result
(`content.rs`, `EmbeddedResource`). -/
structure EmbeddedResource where
  annotations : Option Annotations
  resource : EmbeddedResourceResource

/-- A resource that the server is capable of reading (`content.rs`,
`ResourceLink`).  The `size` field is an `i64`, modelled as `Int`. -/
structure ResourceLink where
  annotations : Option Annotations
  description : Option String
  mimeType : Option String
  name : String
  size : Option Int
  title : Option String
  uri : String

/-- Content blocks of the protocol (`content.rs`, `ContentBlock`): a
`type`-tagged union of Text, Image, Audio, ResourceLink and Resource. -/
inductive ContentBlock where
  | Text (v : TextContent)
  | Image (v : ImageContent)
  | Audio (v : AudioContent)
  | ResourceLink (v : ResourceLink)
  | Resource (v : EmbeddedResource)

/-- Serde serialization of `TextResourceContents`: fields in declaration order
`mimeType` (skipped when `None`), `text`, `uri`. -/
def TextResourceContents.toJson (r : TextResourceContents) : Json :=
  .obj ((match r.mimeType with
         | none => []
         | some m => [("mimeType", Json.str m)]) ++
        [("text", Json.str r.text), ("uri", Json.str r.uri)])

/-- Serde serialization of `BlobResourceContents`: fields in declaration order
`blob`, `mimeType` (skipped when `None`), `uri`. -/
def BlobResourceContents.toJson (r : BlobResourceContents) : Json :=
  .obj ([("blob", Json.str r.blob)] ++
        (match r.mimeType with
         | none => []
         | some m => [("mimeType", Json.str m)]) ++
        [("uri", Json.str r.uri)])

/-- Serde serialization of the untagged `EmbeddedResourceResource`: the inner
value's own serialization, with no tag. -/
def EmbeddedResourceResource.toJson : EmbeddedResourceResource → Json
  | .TextResourceContents v => v.toJson
  | .BlobResourceContents v => v.toJson

/-- Serde-derived deserializer of `TextResourceContents`: requires an object
with string fields `text` and `uri`; `mimeType` is optional (absent or `null`
is `None`); unknown fields are ignored. -/
def TextResourceContents.fromJson (j : Json) : Except String TextResourceContents :=
  match j with
  | .obj fs =>
    match getField fs "mimeType" with
    | .error e => .error e
    | .ok mtf =>
      match decodeOptString mtf with
      | .error e => .error e
      | .ok mt =>
        match getField fs "text" with
        | .error e => .error e
        | .ok tf =>
          match fieldReq decodeString tf "text" with
          | .error e => .error e
          | .ok t =>
            match getField fs "uri" with
            | .error e => .error e
            | .ok uf =>
              match fieldReq decodeString uf "uri" with
              | .error e => .error e
              | .ok u => .ok ⟨mt, t, u⟩
  | _ => .error "invalid type: expected object for TextResourceContents"

/-- Serde-derived deserializer of `BlobResourceContents`: requires an object
with string fields `blob` and `uri`; `mimeType` is optional; unknown fields
are ignored. -/
def BlobResourceContents.fromJson (j : Json) : Except String BlobResourceContents :=
  match j with
  | .obj fs =>
    match getField fs "blob" with
    | .error e => .error e
    | .ok bf =>
      match fieldReq decodeString bf "blob" with
      | .error e => .error e
      | .ok b =>
        match getField fs "mimeType" with
        | .error e => .error e
        | .ok mtf =>
          match decodeOptString mtf with
          | .error e => .error e
          | .ok mt =>
            match getField fs "uri" with
            | .error e => .error e
            | .ok uf =>
              match fieldReq decodeString uf "uri" with
              | .error e => .error e
              | .ok u => .ok ⟨b, mt, u⟩
  | _ => .error "invalid type: expected object for BlobResourceContents"

/-- Serde deserializer of the untagged `EmbeddedResourceResource`: try the
variants in declaration order — `TextResourceContents` first, then
`BlobResourceContents` — and fail only when neither shape matches, with
serde's opaque untagged-enum message. -/
def EmbeddedResourceResource.fromJson (j : Json) : Except String EmbeddedResourceResource :=
  match TextResourceContents.fromJson j with
  | .ok v => .ok (.TextResourceContents v)
  | .error _ =>
    match BlobResourceContents.fromJson j with
    | .ok v => .ok (.BlobResourceContents v)
    | .error _ =>
      .error "data did not match any variant of untagged enum EmbeddedResourceResource"

/-- Round trip of the Text-resource variant's serialization through the
untagged deserializer. -/
theorem textResourceContents_roundTrip (v : TextResourceContents) :
    EmbeddedResourceResource.fromJson (TextResourceContents.toJson v) =
      .ok (.TextResourceContents v) := by
  obtain ⟨mt, t, u⟩ := v
  cases mt <;> rfl

/-- Round trip of the Blob-resource variant's serialization through the
untagged deserializer: the Text attempt fails on the missing `text` field,
the Blob attempt succeeds. -/
theorem blobResourceContents_roundTrip (v : BlobResourceContents) :
    EmbeddedResourceResource.fromJson (BlobResourceContents.toJson v) =
      .ok (.BlobResourceContents v) := by
  obtain ⟨b, mt, u⟩ := v
  cases mt <;> rfl

end Content

namespace Schema

/-- Icon shown next to a tool call (`schema.rs`, `Icon`): unit variants,
serialized as camelCase strings. -/
inductive Icon where
  | FileSearch
  | Folder
  | Globe
  | Hammer
  | LightBulb
  | Pencil
  | Regex
  | Terminal
deriving DecidableEq

/-- A chunk of streamed assistant output (`schema.rs`, `AssistantMessageChunk`):
internally tagged with `type`, variants `text` and `thought`. -/
inductive AssistantMessageChunk where
  | Text (chunk : String)
  | Thought (chunk : String)
deriving DecidableEq

/-- A chunk of a user message (`schema.rs`, `UserMessageChunk`): internally
tagged with `type`, variants `text` and `path` (`PathBuf` modelled as its
string form). -/
inductive UserMessageChunk where
  | Text (chunk : String)
  | Path (path : String)
deriving DecidableEq

/-- A user message (`schema.rs`, `UserMessage`): a list of chunks. -/
structure UserMessage where
  chunks : List UserMessageChunk
deriving DecidableEq

/-- Description of the tool call awaiting confirmation (`schema.rs`,
`ToolCallConfirmation`): internally tagged with `type`, camelCase variant and
field names, optional descriptions skipped when absent. -/
inductive ToolCallConfirmation where
  | Edit (description : Option String)
  | Execute (command : String) (rootCommand : String) (description : Option String)
  | Mcp (serverName : String) (toolName : String) (toolDisplayName : String)
      (description : Option String)
  | Fetch (urls : List String) (description : Option String)
  | Other (description : String)
deriving DecidableEq

/-- Outcome of a confirmation request (`schema.rs`,
`ToolCallConfirmationOutcome`): unit variants serialized as camelCase
strings. -/
inductive ToolCallConfirmationOutcome where
  | Allow
  | AlwaysAllow
  | AlwaysAllowMcpServer
  | AlwaysAllowTool
  | Reject
  | Cancel
deriving DecidableEq

/-- Identifier of a tool call (`schema.rs`, `ToolCallId`): a newtype over
`u64`, serialized transparently as the number; `u64` modelled as `Nat`. -/
structure ToolCallId where
  id : Nat
deriving DecidableEq

/-- Status of a tool call (`schema.rs`, `ToolCallStatus`): unit variants
serialized as camelCase strings. -/
inductive ToolCallStatus where
  | Running
  | Finished
  | Error
deriving DecidableEq

/-- A proposed file change (`schema.rs`, `Diff`): `old_text` is an `Option`
without a skip attribute, so `None` serializes as `null`. -/
structure Diff where
  path : String
  oldText : Option String
  newText : String
deriving DecidableEq

/-- Content attached to a tool call (`schema.rs`, `ToolCallContent`):
internally tagged with `type`, variants `markdown` and `diff`, the latter
flattening the `Diff` fields into the same object. -/
inductive ToolCallContent where
  | Markdown (markdown : String)
  | Diff (diff : Diff)
deriving DecidableEq

/-- Request payload of `initialize` (`schema.rs`, `InitializeParams`): a unit
struct. -/
structure InitializeParams where
deriving DecidableEq

/-- Response payload of `initialize` (`schema.rs`, `InitializeResponse`). -/
structure InitializeResponse where
  isAuthenticated : Bool
deriving DecidableEq

/-- Request payload of `authenticate` (`schema.rs`, `AuthenticateParams`): a
unit struct. -/
structure AuthenticateParams where
deriving DecidableEq

/-- Response payload of `authenticate` (`schema.rs`, `AuthenticateResponse`): a
unit struct. -/
structure AuthenticateResponse where
deriving DecidableEq

/-- Request payload of `sendUserMessage` (`schema.rs`,
`SendUserMessageParams`). -/
structure SendUserMessageParams where
  message : UserMessage
deriving DecidableEq

/-- Response payload of `sendUserMessage` (`schema.rs`,
`SendUserMessageResponse`): a unit struct. -/
structure SendUserMessageResponse where
deriving DecidableEq

/-- Request payload of `cancelSendMessage` (`schema.rs`,
`CancelSendMessageParams`): a unit struct. -/
structure CancelSendMessageParams where
deriving DecidableEq

/-- Response payload of `cancelSendMessage` (`schema.rs`,
`CancelSendMessageResponse`): a unit struct. -/
structure CancelSendMessageResponse where
deriving DecidableEq

/-- Request payload of `streamAssistantMessageChunk` (`schema.rs`,
`StreamAssistantMessageChunkParams`). -/
structure StreamAssistantMessageChunkParams where
  chunk : AssistantMessageChunk
deriving DecidableEq

/-- Response payload of `streamAssistantMessageChunk` (`schema.rs`,
`StreamAssistantMessageChunkResponse`): a unit struct. -/
structure StreamAssistantMessageChunkResponse where
deriving DecidableEq

/-- Request payload of `requestToolCallConfirmation` (`schema.rs`,
`RequestToolCallConfirmationParams`): `content` is optional and skipped when
absent. -/
structure RequestToolCallConfirmationParams where
  label : String
  icon : Icon
  confirmation : ToolCallConfirmation
  content : Option ToolCallContent
deriving DecidableEq

/-- Response payload of `requestToolCallConfirmation` (`schema.rs`,
`RequestToolCallConfirmationResponse`). -/
structure RequestToolCallConfirmationResponse where
  id : ToolCallId
  outcome : ToolCallConfirmationOutcome
deriving DecidableEq

/-- Request payload of `pushToolCall` (`schema.rs`, `PushToolCallParams`):
`content` is optional and skipped when absent. -/
structure PushToolCallParams where
  label : String
  icon : Icon
  content : Option ToolCallContent
deriving DecidableEq

/-- Response payload of `pushToolCall` (`schema.rs`, `PushToolCallResponse`). -/
structure PushToolCallResponse where
  id : ToolCallId
deriving DecidableEq

/-- Request payload of `updateToolCall` (`schema.rs`, `UpdateToolCallParams`):
`content` is an `Option` without a skip attribute, so `None` serializes as
`null`. -/
structure UpdateToolCallParams where
  toolCallId : ToolCallId
  status : ToolCallStatus
  content : Option ToolCallContent
deriving DecidableEq

/-- Response payload of `updateToolCall` (`schema.rs`,
`UpdateToolCallResponse`): a unit struct. -/
structure UpdateToolCallResponse where
deriving DecidableEq

/-- Serde serialization of `Icon`: the camelCase variant name as a string. -/
def Icon.toJson : Icon → Json
  | .FileSearch => .str "fileSearch"
  | .Folder => .str "folder"
  | .Globe => .str "globe"
  | .Hammer => .str "hammer"
  | .LightBulb => .str "lightBulb"
  | .Pencil => .str "pencil"
  | .Regex => .str "regex"
  | .Terminal => .str "terminal"

/-- Serde serialization of `AssistantMessageChunk`: internally tagged, the tag
first. -/
def AssistantMessageChunk.toJson : AssistantMessageChunk → Json
  | .Text chunk => .obj [("type", .str "text"), ("chunk", .str chunk)]
  | .Thought chunk => .obj [("type", .str "thought"), ("chunk", .str chunk)]

/-- Serde serialization of `UserMessageChunk`: internally tagged, the tag
first. -/
def UserMessageChunk.toJson : UserMessageChunk → Json
  | .Text chunk => .obj [("type", .str "text"), ("chunk", .str chunk)]
  | .Path path => .obj [("type", .str "path"), ("path", .str path)]

/-- Serde serialization of `UserMessage`. -/
def UserMessage.toJson (m : UserMessage) : Json :=
  .obj [("chunks", .arr (m.chunks.map UserMessageChunk.toJson))]

/-- Optional-field serialization helper: a field present only when the option
is `some` (serde's `skip_serializing_if = "Option::is_none"`). -/
def optField (name : String) (f : Option String) : List (String × Json) :=
  match f with
  | none => []
  | some s => [(name, Json.str s)]

/-- Serde serialization of `ToolCallConfirmation`: internally tagged, camelCase
variant and field names, descriptions skipped when absent. -/
def ToolCallConfirmation.toJson : ToolCallConfirmation → Json
  | .Edit description => .obj ([("type", .str "edit")] ++ optField "description" description)
  | .Execute command rootCommand description =>
    .obj ([("type", .str "execute"), ("command", .str command),
           ("rootCommand", .str rootCommand)] ++ optField "description" description)
  | .Mcp serverName toolName toolDisplayName description =>
    .obj ([("type", .str "mcp"), ("serverName", .str serverName),
           ("toolName", .str toolName), ("toolDisplayName", .str toolDisplayName)] ++
          optField "description" description)
  | .Fetch urls description =>
    .obj ([("type", .str "fetch"), ("urls", .arr (urls.map Json.str))] ++
          optField "description" description)
  | .Other description => .obj [("type", .str "other"), ("description", .str description)]

/-- Serde serialization of `ToolCallId`: the bare number of the newtype. -/
def ToolCallId.toJson (i : ToolCallId) : Json := .num i.id

/-- Serde serialization of `ToolCallStatus`: the camelCase variant name. -/
def ToolCallStatus.toJson : ToolCallStatus → Json
  | .Running => .str "running"
  | .Finished => .str "finished"
  | .Error => .str "error"

/-- Serde serialization of the `Diff` fields (always used flattened into the
enclosing object): `old_text` has no skip attribute, so `None` becomes
`null`. -/
def Diff.fieldsJson (d : Diff) : List (String × Json) :=
  [("path", .str d.path),
   ("oldText", match d.oldText with | none => Json.null | some s => Json.str s),
   ("newText", .str d.newText)]

/-- Serde serialization of `ToolCallContent`: internally tagged; the `diff`
variant flattens the `Diff` fields beside the tag. -/
def ToolCallContent.toJson : ToolCallContent → Json
  | .Markdown markdown => .obj [("type", .str "markdown"), ("markdown", .str markdown)]
  | .Diff diff => .obj (("type", Json.str "diff") :: diff.fieldsJson)

/-- Serde serialization of `InitializeParams`: a unit struct serializes as the
JSON literal `null` under serde_json. -/
def InitializeParams.toJson (_ : InitializeParams) : Json := .null

/-- Serde serialization of `AuthenticateParams`: a unit struct serializes as
`null`. -/
def AuthenticateParams.toJson (_ : AuthenticateParams) : Json := .null

/-- Serde serialization of `CancelSendMessageParams`: a unit struct serializes
as `null`. -/
def CancelSendMessageParams.toJson (_ : CancelSendMessageParams) : Json := .null

/-- Serde serialization of `AuthenticateResponse`: a unit struct serializes as
`null`. -/
def AuthenticateResponse.toJson (_ : AuthenticateResponse) : Json := .null

/-- Serde serialization of `SendUserMessageResponse`: a unit struct serializes
as `null`. -/
def SendUserMessageResponse.toJson (_ : SendUserMessageResponse) : Json := .null

/-- Serde serialization of `CancelSendMessageResponse`: a unit struct
serializes as `null`. -/
def CancelSendMessageResponse.toJson (_ : CancelSendMessageResponse) : Json := .null

/-- Serde serialization of `StreamAssistantMessageChunkResponse`: a unit struct
serializes as `null`. -/
def StreamAssistantMessageChunkResponse.toJson (_ : StreamAssistantMessageChunkResponse) :
    Json := .null

/-- Serde serialization of `UpdateToolCallResponse`: a unit struct serializes
as `null`. -/
def UpdateToolCallResponse.toJson (_ : UpdateToolCallResponse) : Json := .null

/-- Serde serialization of `SendUserMessageParams`. -/
def SendUserMessageParams.toJson (p : SendUserMessageParams) : Json :=
  .obj [("message", p.message.toJson)]

/-- Serde serialization of `StreamAssistantMessageChunkParams`. -/
def StreamAssistantMessageChunkParams.toJson (p : StreamAssistantMessageChunkParams) : Json :=
  .obj [("chunk", p.chunk.toJson)]

/-- Optional-field serialization helper for `ToolCallContent` fields carrying
`skip_serializing_if = "Option::is_none"`. -/
def optContentField (c : Option ToolCallContent) : List (String × Json) :=
  match c with
  | none => []
  | some v => [("content", v.toJson)]

/-- Serde serialization of `RequestToolCallConfirmationParams`: fields in
declaration order, `content` skipped when absent. -/
def RequestToolCallConfirmationParams.toJson (p : RequestToolCallConfirmationParams) : Json :=
  .obj ([("label", .str p.label), ("icon", p.icon.toJson),
         ("confirmation", p.confirmation.toJson)] ++ optContentField p.content)

/-- Serde serialization of `PushToolCallParams`: fields in declaration order,
`content` skipped when absent. -/
def PushToolCallParams.toJson (p : PushToolCallParams) : Json :=
  .obj ([("label", .str p.label), ("icon", p.icon.toJson)] ++ optContentField p.content)

/-- Serde serialization of `UpdateToolCallParams`: `content` has no skip
attribute, so `None` serializes as `null`. -/
def UpdateToolCallParams.toJson (p : UpdateToolCallParams) : Json :=
  .obj [("toolCallId", p.toolCallId.toJson), ("status", p.status.toJson),
        ("content", match p.content with | none => Json.null | some v => v.toJson)]

end Schema

/-- Decoding a JSON value as a Rust `bool`. -/
def decodeBool : Json → Except String Bool
  | .bool b => .ok b
  | _ => .error "invalid type: expected boolean"

/-- Decoding a JSON value as an unsigned integer (`u64` modelled as `Nat`). -/
def decodeNat : Json → Except String Nat
  | .num n => .ok n
  | _ => .error "invalid type: expected number"

/-- Decoding each element of a JSON array in order, failing on the first
element the decoder rejects, as serde's `Vec` deserializer does. -/
def decodeList {α : Type} (f : Json → Except String α) : List Json → Except String (List α)
  | [] => .ok []
  | j :: rest =>
    match f j with
    | .error e => .error e
    | .ok a =>
      match decodeList f rest with
      | .error e => .error e
      | .ok l => .ok (a :: l)

/-- Decoding a JSON value as a `Vec`: only an array is accepted. -/
def decodeArr {α : Type} (f : Json → Except String α) : Json → Except String (List α)
  | .arr xs => decodeList f xs
  | _ => .error "invalid type: expected array"

/-- Fetching the internally-serialized tag field `type` of a tagged enum or
struct: required, must be a string. -/
def getTag (fs : List (String × Json)) : Except String String :=
  match getField fs "type" with
  | .error e => .error e
  | .ok (some (.str t)) => .ok t
  | .ok (some _) => .error "invalid type: expected string for field type"
  | .ok none => .error "missing field type"

namespace Schema

/-- Serde-derived deserializer of `Icon`: one of the eight camelCase variant
name strings. -/
def Icon.fromJson : Json → Except String Icon
  | .str "fileSearch" => .ok .FileSearch
  | .str "folder" => .ok .Folder
  | .str "globe" => .ok .Globe
  | .str "hammer" => .ok .Hammer
  | .str "lightBulb" => .ok .LightBulb
  | .str "pencil" => .ok .Pencil
  | .str "regex" => .ok .Regex
  | .str "terminal" => .ok .Terminal
  | _ => .error "unknown variant of Icon"

/-- Serde-derived deserializer of `AssistantMessageChunk`: dispatch on the
`type` tag, then read the variant's `chunk` field. -/
def AssistantMessageChunk.fromJson (j : Json) : Except String AssistantMessageChunk :=
  match j with
  | .obj fs =>
    match getTag fs with
    | .error e => .error e
    | .ok "text" =>
      match getField fs "chunk" with
      | .error e => .error e
      | .ok cf =>
        match fieldReq decodeString cf "chunk" with
        | .error e => .error e
        | .ok c => .ok (.Text c)
    | .ok "thought" =>
      match getField fs "chunk" with
      | .error e => .error e
      | .ok cf =>
        match fieldReq decodeString cf "chunk" with
        | .error e => .error e
        | .ok c => .ok (.Thought c)
    | .ok _ => .error "unknown variant of AssistantMessageChunk"
  | _ => .error "invalid type: expected object for AssistantMessageChunk"

/-- Serde-derived deserializer of `UserMessageChunk`: dispatch on the `type`
tag, then read the variant's field. -/
def UserMessageChunk.fromJson (j : Json) : Except String UserMessageChunk :=
  match j with
  | .obj fs =>
    match getTag fs with
    | .error e => .error e
    | .ok "text" =>
      match getField fs "chunk" with
      | .error e => .error e
      | .ok cf =>
        match fieldReq decodeString cf "chunk" with
        | .error e => .error e
        | .ok c => .ok (.Text c)
    | .ok "path" =>
      match getField fs "path" with
      | .error e => .error e
      | .ok pf =>
        match fieldReq decodeString pf "path" with
        | .error e => .error e
        | .ok p => .ok (.Path p)
    | .ok _ => .error "unknown variant of UserMessageChunk"
  | _ => .error "invalid type: expected object for UserMessageChunk"

/-- Serde-derived deserializer of `UserMessage`. -/
def UserMessage.fromJson (j : Json) : Except String UserMessage :=
  match j with
  | .obj fs =>
    match getField fs "chunks" with
    | .error e => .error e
    | .ok cf =>
      match fieldReq (decodeArr UserMessageChunk.fromJson) cf "chunks" with
      | .error e => .error e
      | .ok cs => .ok ⟨cs⟩
  | _ => .error "invalid type: expected object for UserMessage"

/-- Reading the optional `description` field shared by most
`ToolCallConfirmation` variants. -/
def getDescription (fs : List (String × Json)) : Except String (Option String) :=
  match getField fs "description" with
  | .error e => .error e
  | .ok df => decodeOptString df

/-- Serde-derived deserializer of `ToolCallConfirmation`: dispatch on the
`type` tag, then read the variant's camelCase fields. -/
def ToolCallConfirmation.fromJson (j : Json) : Except String ToolCallConfirmation :=
  match j with
  | .obj fs =>
    match getTag fs with
    | .error e => .error e
    | .ok "edit" =>
      match getDescription fs with
      | .error e => .error e
      | .ok d => .ok (.Edit d)
    | .ok "execute" =>
      match getField fs "command" with
      | .error e => .error e
      | .ok cf =>
        match fieldReq decodeString cf "command" with
        | .error e => .error e
        | .ok c =>
          match getField fs "rootCommand" with
          | .error e => .error e
          | .ok rf =>
            match fieldReq decodeString rf "rootCommand" with
            | .error e => .error e
            | .ok r =>
              match getDescription fs with
              | .error e => .error e
              | .ok d => .ok (.Execute c r d)
    | .ok "mcp" =>
      match getField fs "serverName" with
      | .error e => .error e
      | .ok sf =>
        match fieldReq decodeString sf "serverName" with
        | .error e => .error e
        | .ok s =>
          match getField fs "toolName" with
          | .error e => .error e
          | .ok tf =>
            match fieldReq decodeString tf "toolName" with
            | .error e => .error e
            | .ok t =>
              match getField fs "toolDisplayName" with
              | .error e => .error e
              | .ok df =>
                match fieldReq decodeString df "toolDisplayName" with
                | .error e => .error e
                | .ok td =>
                  match getDescription fs with
                  | .error e => .error e
                  | .ok d => .ok (.Mcp s t td d)
    | .ok "fetch" =>
      match getField fs "urls" with
      | .error e => .error e
      | .ok uf =>
        match fieldReq (decodeArr decodeString) uf "urls" with
        | .error e => .error e
        | .ok us =>
          match getDescription fs with
          | .error e => .error e
          | .ok d => .ok (.Fetch us d)
    | .ok "other" =>
      match getField fs "description" with
      | .error e => .error e
      | .ok df =>
        match fieldReq decodeString df "description" with
        | .error e => .error e
        | .ok d => .ok (.Other d)
    | .ok _ => .error "unknown variant of ToolCallConfirmation"
  | _ => .error "invalid type: expected object for ToolCallConfirmation"

/-- Serde-derived deserializer of `ToolCallConfirmationOutcome`: one of the
six camelCase variant name strings. -/
def ToolCallConfirmationOutcome.fromJson : Json → Except String ToolCallConfirmationOutcome
  | .str "allow" => .ok .Allow
  | .str "alwaysAllow" => .ok .AlwaysAllow
  | .str "alwaysAllowMcpServer" => .ok .AlwaysAllowMcpServer
  | .str "alwaysAllowTool" => .ok .AlwaysAllowTool
  | .str "reject" => .ok .Reject
  | .str "cancel" => .ok .Cancel
  | _ => .error "unknown variant of ToolCallConfirmationOutcome"

/-- Serde-derived deserializer of the `ToolCallId` newtype: the bare number. -/
def ToolCallId.fromJson (j : Json) : Except String ToolCallId :=
  match decodeNat j with
  | .error e => .error e
  | .ok n => .ok ⟨n⟩

/-- Serde-derived deserializer of `ToolCallStatus`: one of the three camelCase
variant name strings. -/
def ToolCallStatus.fromJson : Json → Except String ToolCallStatus
  | .str "running" => .ok .Running
  | .str "finished" => .ok .Finished
  | .str "error" => .ok .Error
  | _ => .error "unknown variant of ToolCallStatus"

/-- Serde-derived deserializer of the flattened `Diff` fields: `path` and
`newText` required strings, `oldText` optional. -/
def Diff.fromFields (fs : List (String × Json)) : Except String Diff :=
  match getField fs "path" with
  | .error e => .error e
  | .ok pf =>
    match fieldReq decodeString pf "path" with
    | .error e => .error e
    | .ok p =>
      match getField fs "oldText" with
      | .error e => .error e
      | .ok of =>
        match decodeOptString of with
        | .error e => .error e
        | .ok o =>
          match getField fs "newText" with
          | .error e => .error e
          | .ok nf =>
            match fieldReq decodeString nf "newText" with
            | .error e => .error e
            | .ok n => .ok ⟨p, o, n⟩

/-- Serde-derived deserializer of `ToolCallContent`: dispatch on the `type`
tag; the `diff` variant reads the flattened `Diff` fields from the same
object. -/
def ToolCallContent.fromJson (j : Json) : Except String ToolCallContent :=
  match j with
  | .obj fs =>
    match getTag fs with
    | .error e => .error e
    | .ok "markdown" =>
      match getField fs "markdown" with
      | .error e => .error e
      | .ok mf =>
        match fieldReq decodeString mf "markdown" with
        | .error e => .error e
        | .ok m => .ok (.Markdown m)
    | .ok "diff" =>
      match Diff.fromFields fs with
      | .error e => .error e
      | .ok d => .ok (.Diff d)
    | .ok _ => .error "unknown variant of ToolCallContent"
  | _ => .error "invalid type: expected object for ToolCallContent"

/-- Serde-derived deserializer of `StreamAssistantMessageChunkParams`. -/
def StreamAssistantMessageChunkParams.fromJson (j : Json) :
    Except String StreamAssistantMessageChunkParams :=
  match j with
  | .obj fs =>
    match getField fs "chunk" with
    | .error e => .error e
    | .ok cf =>
      match fieldReq AssistantMessageChunk.fromJson cf "chunk" with
      | .error e => .error e
      | .ok c => .ok ⟨c⟩
  | _ => .error "invalid type: expected object for StreamAssistantMessageChunkParams"

/-- Serde-derived deserializer of `SendUserMessageParams`. -/
def SendUserMessageParams.fromJson (j : Json) : Except String SendUserMessageParams :=
  match j with
  | .obj fs =>
    match getField fs "message" with
    | .error e => .error e
    | .ok mf =>
      match fieldReq UserMessage.fromJson mf "message" with
      | .error e => .error e
      | .ok m => .ok ⟨m⟩
  | _ => .error "invalid type: expected object for SendUserMessageParams"

/-- Serde-derived deserializer of `RequestToolCallConfirmationParams`. -/
def RequestToolCallConfirmationParams.fromJson (j : Json) :
    Except String RequestToolCallConfirmationParams :=
  match j with
  | .obj fs =>
    match getField fs "label" with
    | .error e => .error e
    | .ok lf =>
      match fieldReq decodeString lf "label" with
      | .error e => .error e
      | .ok l =>
        match getField fs "icon" with
        | .error e => .error e
        | .ok icf =>
          match fieldReq Icon.fromJson icf "icon" with
          | .error e => .error e
          | .ok ic =>
            match getField fs "confirmation" with
            | .error e => .error e
            | .ok cf =>
              match fieldReq ToolCallConfirmation.fromJson cf "confirmation" with
              | .error e => .error e
              | .ok c =>
                match getField fs "content" with
                | .error e => .error e
                | .ok ctf =>
                  match fieldOpt ToolCallContent.fromJson ctf with
                  | .error e => .error e
                  | .ok ct => .ok ⟨l, ic, c, ct⟩
  | _ => .error "invalid type: expected object for RequestToolCallConfirmationParams"

/-- Serde-derived deserializer of `PushToolCallParams`. -/
def PushToolCallParams.fromJson (j : Json) : Except String PushToolCallParams :=
  match j with
  | .obj fs =>
    match getField fs "label" with
    | .error e => .error e
    | .ok lf =>
      match fieldReq decodeString lf "label" with
      | .error e => .error e
      | .ok l =>
        match getField fs "icon" with
        | .error e => .error e
        | .ok icf =>
          match fieldReq Icon.fromJson icf "icon" with
          | .error e => .error e
          | .ok ic =>
            match getField fs "content" with
            | .error e => .error e
            | .ok ctf =>
              match fieldOpt ToolCallContent.fromJson ctf with
              | .error e => .error e
              | .ok ct => .ok ⟨l, ic, ct⟩
  | _ => .error "invalid type: expected object for PushToolCallParams"

/-- Serde-derived deserializer of `UpdateToolCallParams`. -/
def UpdateToolCallParams.fromJson (j : Json) : Except String UpdateToolCallParams :=
  match j with
  | .obj fs =>
    match getField fs "toolCallId" with
    | .error e => .error e
    | .ok idf =>
      match fieldReq ToolCallId.fromJson idf "toolCallId" with
      | .error e => .error e
      | .ok i =>
        match getField fs "status" with
        | .error e => .error e
        | .ok sf =>
          match fieldReq ToolCallStatus.fromJson sf "status" with
          | .error e => .error e
          | .ok s =>
            match getField fs "content" with
            | .error e => .error e
            | .ok ctf =>
              match fieldOpt ToolCallContent.fromJson ctf with
              | .error e => .error e
              | .ok ct => .ok ⟨i, s, ct⟩
  | _ => .error "invalid type: expected object for UpdateToolCallParams"

/-- Serde-derived deserializer of `InitializeResponse`. -/
def InitializeResponse.fromJson (j : Json) : Except String InitializeResponse :=
  match j with
  | .obj fs =>
    match getField fs "isAuthenticated" with
    | .error e => .error e
    | .ok af =>
      match fieldReq decodeBool af "isAuthenticated" with
      | .error e => .error e
      | .ok a => .ok ⟨a⟩
  | _ => .error "invalid type: expected object for InitializeResponse"

/-- Serde-derived deserializer of `RequestToolCallConfirmationResponse`
(a `type`-tagged struct; the tag, like any unknown field, is ignored on
reading the named fields). -/
def RequestToolCallConfirmationResponse.fromJson (j : Json) :
    Except String RequestToolCallConfirmationResponse :=
  match j with
  | .obj fs =>
    match getField fs "id" with
    | .error e => .error e
    | .ok idf =>
      match fieldReq ToolCallId.fromJson idf "id" with
      | .error e => .error e
      | .ok i =>
        match getField fs "outcome" with
        | .error e => .error e
        | .ok of =>
          match fieldReq ToolCallConfirmationOutcome.fromJson of "outcome" with
          | .error e => .error e
          | .ok o => .ok ⟨i, o⟩
  | _ => .error "invalid type: expected object for RequestToolCallConfirmationResponse"

/-- Serde-derived deserializer of `PushToolCallResponse` (a `type`-tagged
struct; the tag, like any unknown field, is ignored on reading `id`). -/
def PushToolCallResponse.fromJson (j : Json) : Except String PushToolCallResponse :=
  match j with
  | .obj fs =>
    match getField fs "id" with
    | .error e => .error e
    | .ok idf =>
      match fieldReq ToolCallId.fromJson idf "id" with
      | .error e => .error e
      | .ok i => .ok ⟨i⟩
  | _ => .error "invalid type: expected object for PushToolCallResponse"

/-- Round trip of `Icon` through its serde serialization. -/
theorem icon_roundTrip (i : Icon) : Icon.fromJson i.toJson = .ok i := by
  cases i <;> rfl

/-- Round trip of `AssistantMessageChunk` through its serde serialization. -/
theorem assistantMessageChunk_roundTrip (c : AssistantMessageChunk) :
    AssistantMessageChunk.fromJson c.toJson = .ok c := by
  cases c <;> rfl

/-- Round trip of `UserMessageChunk` through its serde serialization. -/
theorem userMessageChunk_roundTrip (c : UserMessageChunk) :
    UserMessageChunk.fromJson c.toJson = .ok c := by
  cases c <;> rfl

/-- Round trip of a list of strings through the serde `Vec<String>` coding. -/
theorem stringList_roundTrip (l : List String) :
    decodeList decodeString (l.map Json.str) = .ok l := by
  induction l with
  | nil => rfl
  | cons x rest ih => simp [decodeList, decodeString, ih]

/-- Round trip of a list of user-message chunks through the serde
`Vec<UserMessageChunk>` coding. -/
theorem userMessageChunkList_roundTrip (l : List UserMessageChunk) :
    decodeList UserMessageChunk.fromJson (l.map UserMessageChunk.toJson) = .ok l := by
  induction l with
  | nil => rfl
  | cons x rest ih => simp [decodeList, userMessageChunk_roundTrip, ih]

/-- Round trip of `UserMessage` through its serde serialization. -/
theorem userMessage_roundTrip (m : UserMessage) :
    UserMessage.fromJson m.toJson = .ok m := by
  obtain ⟨chunks⟩ := m
  simp [UserMessage.toJson, UserMessage.fromJson, getField, fieldReq, decodeArr,
    userMessageChunkList_roundTrip]

/-- Round trip of `ToolCallConfirmation` through its serde serialization. -/
theorem toolCallConfirmation_roundTrip (c : ToolCallConfirmation) :
    ToolCallConfirmation.fromJson c.toJson = .ok c := by
  cases c with
  | Edit d => cases d <;> rfl
  | Execute c r d => cases d <;> rfl
  | Mcp s t td d => cases d <;> rfl
  | Fetch urls d =>
    cases d <;>
      simp [ToolCallConfirmation.toJson, ToolCallConfirmation.fromJson, optField, getTag,
        getField, fieldReq, decodeArr, getDescription, decodeOptString,
        stringList_roundTrip]
  | Other d => rfl

/-- Round trip of `ToolCallStatus` through its serde serialization. -/
theorem toolCallStatus_roundTrip (s : ToolCallStatus) :
    ToolCallStatus.fromJson s.toJson = .ok s := by
  cases s <;> rfl

/-- Round trip of `ToolCallContent` through its serde serialization. -/
theorem toolCallContent_roundTrip (c : ToolCallContent) :
    ToolCallContent.fromJson c.toJson = .ok c := by
  cases c with
  | Markdown m => rfl
  | Diff d => obtain ⟨p, o, n⟩ := d; cases o <;> rfl

/-- Reading back an optional `content` field written from a present value. -/
theorem fieldOpt_content (v : ToolCallContent) :
    fieldOpt ToolCallContent.fromJson (some v.toJson) = .ok (some v) := by
  cases v with
  | Markdown m => rfl
  | Diff d => obtain ⟨p, o, n⟩ := d; cases o <;> rfl

/-- Reading back an absent optional field. -/
theorem fieldOpt_none {α : Type} (f : Json → Except String α) :
    fieldOpt f none = .ok none := rfl

/-- Reading back an optional field written as `null`. -/
theorem fieldOpt_null {α : Type} (f : Json → Except String α) :
    fieldOpt f (some .null) = .ok none := rfl

/-- Round trip of `StreamAssistantMessageChunkParams` through its serde
serialization. -/
theorem streamAssistantMessageChunkParams_roundTrip (p : StreamAssistantMessageChunkParams) :
    StreamAssistantMessageChunkParams.fromJson p.toJson = .ok p := by
  obtain ⟨c⟩ := p
  cases c <;> rfl

/-- Round trip of `SendUserMessageParams` through its serde serialization. -/
theorem sendUserMessageParams_roundTrip (p : SendUserMessageParams) :
    SendUserMessageParams.fromJson p.toJson = .ok p := by
  obtain ⟨⟨chunks⟩⟩ := p
  simp [SendUserMessageParams.toJson, SendUserMessageParams.fromJson, UserMessage.toJson,
    UserMessage.fromJson, getField, fieldReq, decodeArr, userMessageChunkList_roundTrip]

/-- Round trip of `RequestToolCallConfirmationParams` through its serde
serialization. -/
theorem requestToolCallConfirmationParams_roundTrip (p : RequestToolCallConfirmationParams) :
    RequestToolCallConfirmationParams.fromJson p.toJson = .ok p := by
  obtain ⟨l, ic, c, ct⟩ := p
  cases ct <;>
    simp [RequestToolCallConfirmationParams.toJson, RequestToolCallConfirmationParams.fromJson,
      optContentField, getField, fieldReq, decodeString, icon_roundTrip,
      toolCallConfirmation_roundTrip, fieldOpt_content, fieldOpt_none]

/-- Round trip of `PushToolCallParams` through its serde serialization. -/
theorem pushToolCallParams_roundTrip (p : PushToolCallParams) :
    PushToolCallParams.fromJson p.toJson = .ok p := by
  obtain ⟨l, ic, ct⟩ := p
  cases ct <;>
    simp [PushToolCallParams.toJson, PushToolCallParams.fromJson, optContentField, getField,
      fieldReq, decodeString, icon_roundTrip, fieldOpt_content, fieldOpt_none]

/-- Round trip of `UpdateToolCallParams` through its serde serialization. -/
theorem updateToolCallParams_roundTrip (p : UpdateToolCallParams) :
    UpdateToolCallParams.fromJson p.toJson = .ok p := by
  obtain ⟨⟨n⟩, s, ct⟩ := p
  cases ct <;>
    simp [UpdateToolCallParams.toJson, UpdateToolCallParams.fromJson, getField, fieldReq,
      ToolCallId.toJson, ToolCallId.fromJson, decodeNat,
      toolCallStatus_roundTrip, fieldOpt_content, fieldOpt_none, fieldOpt_null]

/-- One row of the static method registry (`schema.rs`, `Method`). -/
structure Method where
  name : String
  requestType : String
  paramPayload : Bool
  responseType : String
  responsePayload : Bool
deriving DecidableEq

/-- The envelope of every request the Client role can receive (`schema.rs`,
`AnyClientRequest`, generated by `acp_peer!`): one variant per catalog entry,
in declaration order, `serde(untagged)`. -/
inductive AnyClientRequest where
  | StreamAssistantMessageChunkParams (p : StreamAssistantMessageChunkParams)
  | RequestToolCallConfirmationParams (p : RequestToolCallConfirmationParams)
  | PushToolCallParams (p : PushToolCallParams)
  | UpdateToolCallParams (p : UpdateToolCallParams)
deriving DecidableEq

/-- The envelope of every response the Client role can return (`schema.rs`,
`AnyClientResult`): one variant per catalog entry, `serde(untagged)`. -/
inductive AnyClientResult where
  | StreamAssistantMessageChunkResponse (r : StreamAssistantMessageChunkResponse)
  | RequestToolCallConfirmationResponse (r : RequestToolCallConfirmationResponse)
  | PushToolCallResponse (r : PushToolCallResponse)
  | UpdateToolCallResponse (r : UpdateToolCallResponse)
deriving DecidableEq

/-- The envelope of every request the Agent role can receive (`schema.rs`,
`AnyAgentRequest`): one variant per catalog entry, `serde(untagged)`. -/
inductive AnyAgentRequest where
  | InitializeParams (p : InitializeParams)
  | AuthenticateParams (p : AuthenticateParams)
  | SendUserMessageParams (p : SendUserMessageParams)
  | CancelSendMessageParams (p : CancelSendMessageParams)
deriving DecidableEq

/-- The envelope of every response the Agent role can return (`schema.rs`,
`AnyAgentResult`): one variant per catalog entry, `serde(untagged)`. -/
inductive AnyAgentResult where
  | InitializeResponse (r : InitializeResponse)
  | AuthenticateResponse (r : AuthenticateResponse)
  | SendUserMessageResponse (r : SendUserMessageResponse)
  | CancelSendMessageResponse (r : CancelSendMessageResponse)
deriving DecidableEq

/-- Serde serialization of the untagged `AnyClientRequest`: the inner payload's
serialization; the envelope tag is never serialized. -/
def AnyClientRequest.toJson : AnyClientRequest → Json
  | .StreamAssistantMessageChunkParams p => p.toJson
  | .RequestToolCallConfirmationParams p => p.toJson
  | .PushToolCallParams p => p.toJson
  | .UpdateToolCallParams p => p.toJson

/-- Serde serialization of the untagged `AnyAgentRequest`: the inner payload's
serialization; the envelope tag is never serialized. -/
def AnyAgentRequest.toJson : AnyAgentRequest → Json
  | .InitializeParams p => p.toJson
  | .AuthenticateParams p => p.toJson
  | .SendUserMessageParams p => p.toJson
  | .CancelSendMessageParams p => p.toJson

/-- `AnyRequest::from_method_and_params` for the Client role (`schema.rs`,
`impl AnyRequest for AnyClientRequest`): match the method string exactly
against the catalog's wire names in declaration order; a known entry with a
payload parses it (`PARSE_ERROR` with the parser's message on failure); an
unknown method is `METHOD_NOT_FOUND`.  Every Client entry declares a request
payload. -/
def AnyClientRequest.fromMethodAndParams (method : String) (params : Json) :
    Except Error AnyClientRequest :=
  if method = "streamAssistantMessageChunk" then
    match StreamAssistantMessageChunkParams.fromJson params with
    | .ok p => .ok (.StreamAssistantMessageChunkParams p)
    | .error e => .error (ErrorCode.parseError.intoErrorWithDetails e)
  else if method = "requestToolCallConfirmation" then
    match RequestToolCallConfirmationParams.fromJson params with
    | .ok p => .ok (.RequestToolCallConfirmationParams p)
    | .error e => .error (ErrorCode.parseError.intoErrorWithDetails e)
  else if method = "pushToolCall" then
    match PushToolCallParams.fromJson params with
    | .ok p => .ok (.PushToolCallParams p)
    | .error e => .error (ErrorCode.parseError.intoErrorWithDetails e)
  else if method = "updateToolCall" then
    match UpdateToolCallParams.fromJson params with
    | .ok p => .ok (.UpdateToolCallParams p)
    | .error e => .error (ErrorCode.parseError.intoErrorWithDetails e)
  else
    .error ErrorCode.methodNotFound.intoError

/-- `AnyRequest::response_from_method_and_result` for the Client role: a known
entry with a response payload parses the raw result; one without returns the
marker response without looking at it; an unknown method is
`METHOD_NOT_FOUND`. -/
def AnyClientRequest.responseFromMethodAndResult (method : String) (params : Json) :
    Except Error AnyClientResult :=
  if method = "streamAssistantMessageChunk" then
    .ok (.StreamAssistantMessageChunkResponse ⟨⟩)
  else if method = "requestToolCallConfirmation" then
    match RequestToolCallConfirmationResponse.fromJson params with
    | .ok r => .ok (.RequestToolCallConfirmationResponse r)
    | .error e => .error (ErrorCode.parseError.intoErrorWithDetails e)
  else if method = "pushToolCall" then
    match PushToolCallResponse.fromJson params with
    | .ok r => .ok (.PushToolCallResponse r)
    | .error e => .error (ErrorCode.parseError.intoErrorWithDetails e)
  else if method = "updateToolCall" then
    .ok (.UpdateToolCallResponse ⟨⟩)
  else
    .error ErrorCode.methodNotFound.intoError

/-- `AnyRequest::from_method_and_params` for the Agent role: `initialize`,
`authenticate` and `cancelSendMessage` declare no request payload, so their
raw params are never inspected; `sendUserMessage` parses its payload. -/
def AnyAgentRequest.fromMethodAndParams (method : String) (params : Json) :
    Except Error AnyAgentRequest :=
  if method = "initialize" then
    .ok (.InitializeParams ⟨⟩)
  else if method = "authenticate" then
    .ok (.AuthenticateParams ⟨⟩)
  else if method = "sendUserMessage" then
    match SendUserMessageParams.fromJson params with
    | .ok p => .ok (.SendUserMessageParams p)
    | .error e => .error (ErrorCode.parseError.intoErrorWithDetails e)
  else if method = "cancelSendMessage" then
    .ok (.CancelSendMessageParams ⟨⟩)
  else
    .error ErrorCode.methodNotFound.intoError

/-- `AnyRequest::response_from_method_and_result` for the Agent role: only
`initialize` declares a response payload. -/
def AnyAgentRequest.responseFromMethodAndResult (method : String) (params : Json) :
    Except Error AnyAgentResult :=
  if method = "initialize" then
    match InitializeResponse.fromJson params with
    | .ok r => .ok (.InitializeResponse r)
    | .error e => .error (ErrorCode.parseError.intoErrorWithDetails e)
  else if method = "authenticate" then
    .ok (.AuthenticateResponse ⟨⟩)
  else if method = "sendUserMessage" then
    .ok (.SendUserMessageResponse ⟨⟩)
  else if method = "cancelSendMessage" then
    .ok (.CancelSendMessageResponse ⟨⟩)
  else
    .error ErrorCode.methodNotFound.intoError

/-- `AnyClientRequest::method_name` (`schema.rs`): the wire method string of
the envelope's variant. -/
def AnyClientRequest.methodName : AnyClientRequest → String
  | .StreamAssistantMessageChunkParams _ => "streamAssistantMessageChunk"
  | .RequestToolCallConfirmationParams _ => "requestToolCallConfirmation"
  | .PushToolCallParams _ => "pushToolCall"
  | .UpdateToolCallParams _ => "updateToolCall"

/-- `AnyAgentRequest::method_name` (`schema.rs`): the wire method string of the
envelope's variant. -/
def AnyAgentRequest.methodName : AnyAgentRequest → String
  | .InitializeParams _ => "initialize"
  | .AuthenticateParams _ => "authenticate"
  | .SendUserMessageParams _ => "sendUserMessage"
  | .CancelSendMessageParams _ => "cancelSendMessage"

/-- The static registry of the Client role (`schema.rs`, `CLIENT_METHODS`). -/
def CLIENT_METHODS : List Method :=
  [⟨"streamAssistantMessageChunk", "StreamAssistantMessageChunkParams", true,
    "StreamAssistantMessageChunkResponse", false⟩,
   ⟨"requestToolCallConfirmation", "RequestToolCallConfirmationParams", true,
    "RequestToolCallConfirmationResponse", true⟩,
   ⟨"pushToolCall", "PushToolCallParams", true, "PushToolCallResponse", true⟩,
   ⟨"updateToolCall", "UpdateToolCallParams", true, "UpdateToolCallResponse", false⟩]

/-- The static registry of the Agent role (`schema.rs`, `AGENT_METHODS`). -/
def AGENT_METHODS : List Method :=
  [⟨"initialize", "InitializeParams", false, "InitializeResponse", true⟩,
   ⟨"authenticate", "AuthenticateParams", false, "AuthenticateResponse", false⟩,
   ⟨"sendUserMessage", "SendUserMessageParams", true, "SendUserMessageResponse", false⟩,
   ⟨"cancelSendMessage", "CancelSendMessageParams", false, "CancelSendMessageResponse", false⟩]

/-- A Client-role handler implementation (`schema.rs`, the generated `Client`
trait): one method per catalog entry.  Each Rust handler is asynchronous and
returns `anyhow::Result`; its observable outcome is modelled as
`Except String`, the `String` being what `e.to_string()` yields on failure. -/
structure Client where
  stream_assistant_message_chunk : StreamAssistantMessageChunkParams → Except String Unit
  request_tool_call_confirmation :
    RequestToolCallConfirmationParams → Except String RequestToolCallConfirmationResponse
  push_tool_call : PushToolCallParams → Except String PushToolCallResponse
  update_tool_call : UpdateToolCallParams → Except String Unit

/-- An Agent-role handler implementation (`schema.rs`, the generated `Agent`
trait).  Entries without a request payload are handler methods taking no
argument, modelled as plain outcome values. -/
structure Agent where
  init : Except String InitializeResponse
  authenticate : Except String Unit
  send_user_message : SendUserMessageParams → Except String Unit
  cancel_send_message : Except String Unit

/-- The Client role's `call` dispatch entry point (`schema.rs`, generated by
`acp_peer!` from `handler_trait_call_req`): pattern-match the request
envelope, invoke that entry's handler, wrap success into the matching
response variant (the marker response when the entry declares none), and turn
a handler failure into `INTERNAL_ERROR` with the failure's message as
details. -/
def Client.call (self : Client) (params : AnyClientRequest) : Except Error AnyClientResult :=
  match params with
  | .StreamAssistantMessageChunkParams p =>
    match self.stream_assistant_message_chunk p with
    | .error e => .error (ErrorCode.internalError.intoErrorWithDetails e)
    | .ok _ => .ok (.StreamAssistantMessageChunkResponse ⟨⟩)
  | .RequestToolCallConfirmationParams p =>
    match self.request_tool_call_confirmation p with
    | .error e => .error (ErrorCode.internalError.intoErrorWithDetails e)
    | .ok resp => .ok (.RequestToolCallConfirmationResponse resp)
  | .PushToolCallParams p =>
    match self.push_tool_call p with
    | .error e => .error (ErrorCode.internalError.intoErrorWithDetails e)
    | .ok resp => .ok (.PushToolCallResponse resp)
  | .UpdateToolCallParams p =>
    match self.update_tool_call p with
    | .error e => .error (ErrorCode.internalError.intoErrorWithDetails e)
    | .ok _ => .ok (.UpdateToolCallResponse ⟨⟩)

/-- The Agent role's `call` dispatch entry point, generated the same way:
payload-less entries invoke their no-argument handler. -/
def Agent.call (self : Agent) (params : AnyAgentRequest) : Except Error AnyAgentResult :=
  match params with
  | .InitializeParams _ =>
    match self.init with
    | .error e => .error (ErrorCode.internalError.intoErrorWithDetails e)
    | .ok resp => .ok (.InitializeResponse resp)
  | .AuthenticateParams _ =>
    match self.authenticate with
    | .error e => .error (ErrorCode.internalError.intoErrorWithDetails e)
    | .ok _ => .ok (.AuthenticateResponse ⟨⟩)
  | .SendUserMessageParams p =>
    match self.send_user_message p with
    | .error e => .error (ErrorCode.internalError.intoErrorWithDetails e)
    | .ok _ => .ok (.SendUserMessageResponse ⟨⟩)
  | .CancelSendMessageParams _ =>
    match self.cancel_send_message with
    | .error e => .error (ErrorCode.internalError.intoErrorWithDetails e)
    | .ok _ => .ok (.CancelSendMessageResponse ⟨⟩)

/-- `ClientRequest::into_any` for `StreamAssistantMessageChunkParams`
(`schema.rs`, generated by `req_into_any!`): wrap the request in its one
catalog variant. -/
def StreamAssistantMessageChunkParams.intoAny (self : StreamAssistantMessageChunkParams) :
    AnyClientRequest :=
  .StreamAssistantMessageChunkParams self

/-- `ClientRequest::response_from_any` for `StreamAssistantMessageChunkParams`
(`schema.rs`, generated by `resp_from_any!`, payload-less response): unwrap
the matching variant to `()` or fail with `INTERNAL_ERROR` "Unexpected
Response". -/
def StreamAssistantMessageChunkParams.responseFromAny (any : AnyClientResult) :
    Except Error Unit :=
  match any with
  | .StreamAssistantMessageChunkResponse _ => .ok ()
  | _ => .error (ErrorCode.internalError.intoErrorWithDetails "Unexpected Response")

/-- `ClientRequest::into_any` for `RequestToolCallConfirmationParams`. -/
def RequestToolCallConfirmationParams.intoAny (self : RequestToolCallConfirmationParams) :
    AnyClientRequest :=
  .RequestToolCallConfirmationParams self

/-- `ClientRequest::response_from_any` for `RequestToolCallConfirmationParams`:
unwrap the matching variant's payload or fail with `INTERNAL_ERROR`
"Unexpected Response". -/
def RequestToolCallConfirmationParams.responseFromAny (any : AnyClientResult) :
    Except Error RequestToolCallConfirmationResponse :=
  match any with
  | .RequestToolCallConfirmationResponse this => .ok this
  | _ => .error (ErrorCode.internalError.intoErrorWithDetails "Unexpected Response")

/-- `ClientRequest::into_any` for `PushToolCallParams`. -/
def PushToolCallParams.intoAny (self : PushToolCallParams) : AnyClientRequest :=
  .PushToolCallParams self

/-- `ClientRequest::response_from_any` for `PushToolCallParams`. -/
def PushToolCallParams.responseFromAny (any : AnyClientResult) :
    Except Error PushToolCallResponse :=
  match any with
  | .PushToolCallResponse this => .ok this
  | _ => .error (ErrorCode.internalError.intoErrorWithDetails "Unexpected Response")

/-- `ClientRequest::into_any` for `UpdateToolCallParams`. -/
def UpdateToolCallParams.intoAny (self : UpdateToolCallParams) : AnyClientRequest :=
  .UpdateToolCallParams self

/-- `ClientRequest::response_from_any` for `UpdateToolCallParams`
(payload-less response). -/
def UpdateToolCallParams.responseFromAny (any : AnyClientResult) : Except Error Unit :=
  match any with
  | .UpdateToolCallResponse _ => .ok ()
  | _ => .error (ErrorCode.internalError.intoErrorWithDetails "Unexpected Response")

/-- `AgentRequest::into_any` for `InitializeParams` (payload-less request: the
macro builds the unit marker value). -/
def InitializeParams.intoAny (_ : InitializeParams) : AnyAgentRequest :=
  .InitializeParams ⟨⟩

/-- `AgentRequest::response_from_any` for `InitializeParams`. -/
def InitializeParams.responseFromAny (any : AnyAgentResult) :
    Except Error InitializeResponse :=
  match any with
  | .InitializeResponse this => .ok this
  | _ => .error (ErrorCode.internalError.intoErrorWithDetails "Unexpected Response")

/-- `AgentRequest::into_any` for `AuthenticateParams` (payload-less request). -/
def AuthenticateParams.intoAny (_ : AuthenticateParams) : AnyAgentRequest :=
  .AuthenticateParams ⟨⟩

/-- `AgentRequest::response_from_any` for `AuthenticateParams` (payload-less
response). -/
def AuthenticateParams.responseFromAny (any : AnyAgentResult) : Except Error Unit :=
  match any with
  | .AuthenticateResponse _ => .ok ()
  | _ => .error (ErrorCode.internalError.intoErrorWithDetails "Unexpected Response")

/-- `AgentRequest::into_any` for `SendUserMessageParams`. -/
def SendUserMessageParams.intoAny (self : SendUserMessageParams) : AnyAgentRequest :=
  .SendUserMessageParams self

/-- `AgentRequest::response_from_any` for `SendUserMessageParams`
(payload-less response). -/
def SendUserMessageParams.responseFromAny (any : AnyAgentResult) : Except Error Unit :=
  match any with
  | .SendUserMessageResponse _ => .ok ()
  | _ => .error (ErrorCode.internalError.intoErrorWithDetails "Unexpected Response")

/-- `AgentRequest::into_any` for `CancelSendMessageParams` (payload-less
request). -/
def CancelSendMessageParams.intoAny (_ : CancelSendMessageParams) : AnyAgentRequest :=
  .CancelSendMessageParams ⟨⟩

/-- `AgentRequest::response_from_any` for `CancelSendMessageParams`
(payload-less response). -/
def CancelSendMessageParams.responseFromAny (any : AnyAgentResult) : Except Error Unit :=
  match any with
  | .CancelSendMessageResponse _ => .ok ()
  | _ => .error (ErrorCode.internalError.intoErrorWithDetails "Unexpected Response")

end Schema

namespace Tool

/-- Identifier of a tool call (`tool_call.rs`, `ToolCallId`): a transparent
newtype over a shared string. -/
structure ToolCallId where
  id : String

/-- Category of a tool call (`tool_call.rs`, `ToolKind`); `Other` is the
default. -/
inductive ToolKind where
  | Read
  | Edit
  | Delete
  | Move
  | Search
  | Execute
  | Think
  | Fetch
  | Other

/-- Lifecycle status of a tool call (`tool_call.rs`, `ToolCallStatus`);
`Pending` is the default. -/
inductive ToolCallStatus where
  | Pending
  | InProgress
  | Completed
  | Failed

/-- A proposed file change (`tool_call.rs`, `Diff`). -/
structure Diff where
  path : String
  oldText : Option String
  newText : String

/-- One content item of a tool call (`tool_call.rs`, `ToolCallContent`):
either a content block or a diff. -/
inductive ToolCallContent where
  | Content (content : Content.ContentBlock)
  | Diff (diff : Diff)

/-- A file location a tool call touches (`tool_call.rs`, `ToolCallLocation`). -/
structure ToolCallLocation where
  path : String
  line : Option Nat

/-- A full tool-call record (`tool_call.rs`, `ToolCall`): identity plus title,
kind, status, content, locations and the opaque raw input/output values
(`serde_json::Value` modelled as `Json`). -/
structure ToolCall where
  id : ToolCallId
  title : String
  kind : ToolKind
  status : ToolCallStatus
  content : List ToolCallContent
  locations : List ToolCallLocation
  rawInput : Option Json
  rawOutput : Option Json

/-- The optional fields a partial update may carry (`tool_call.rs`,
`ToolCallUpdateFields`): every field optional, in the source's declaration
order. -/
structure ToolCallUpdateFields where
  kind : Option ToolKind
  status : Option ToolCallStatus
  title : Option String
  content : Option (List ToolCallContent)
  locations : Option (List ToolCallLocation)
  rawInput : Option Json
  rawOutput : Option Json

/-- A partial update to an existing tool call (`tool_call.rs`,
`ToolCallUpdate`): the id plus the changed fields. -/
structure ToolCallUpdate where
  id : ToolCallId
  fields : ToolCallUpdateFields

/-- The all-absent update payload (`ToolCallUpdateFields::default()`). -/
def ToolCallUpdateFields.empty : ToolCallUpdateFields :=
  ⟨none, none, none, none, none, none, none⟩

/-- Modelled from the spec: the merge of a `ToolCallUpdate` into a prior
`ToolCall`.  The function applying `ToolCallUpdateFields` to a `ToolCall` is
not among the provided sources (only the two type declarations are); §3
states the rule "absent field ⇒ leave unchanged; present field ⇒ overwrite
(full replacement, not deep merge) — content and locations lists are replaced
wholesale, never appended". -/
def ToolCall.applyUpdate (t : ToolCall) (u : ToolCallUpdate) : ToolCall :=
  { id := t.id
    title := u.fields.title.getD t.title
    kind := u.fields.kind.getD t.kind
    status := u.fields.status.getD t.status
    content := u.fields.content.getD t.content
    locations := u.fields.locations.getD t.locations
    rawInput := match u.fields.rawInput with
                | some v => some v
                | none => t.rawInput
    rawOutput := match u.fields.rawOutput with
                 | some v => some v
                 | none => t.rawOutput }

end Tool

namespace Schema

/-- Discriminator for the first Client response variant, used to state which
envelope values belong to the `streamAssistantMessageChunk` entry. -/
def AnyClientResult.isStreamChunkResp : AnyClientResult → Bool
  | .StreamAssistantMessageChunkResponse _ => true
  | _ => false

/-- Discriminator for the `requestToolCallConfirmation` response variant. -/
def AnyClientResult.isConfirmationResp : AnyClientResult → Bool
  | .RequestToolCallConfirmationResponse _ => true
  | _ => false

/-- Discriminator for the `pushToolCall` response variant. -/
def AnyClientResult.isPushResp : AnyClientResult → Bool
  | .PushToolCallResponse _ => true
  | _ => false

/-- Discriminator for the `updateToolCall` response variant. -/
def AnyClientResult.isUpdateResp : AnyClientResult → Bool
  | .UpdateToolCallResponse _ => true
  | _ => false

/-- Discriminator for the `initialize` response variant. -/
def AnyAgentResult.isInitResp : AnyAgentResult → Bool
  | .InitializeResponse _ => true
  | _ => false

/-- Discriminator for the `authenticate` response variant. -/
def AnyAgentResult.isAuthResp : AnyAgentResult → Bool
  | .AuthenticateResponse _ => true
  | _ => false

/-- Discriminator for the `sendUserMessage` response variant. -/
def AnyAgentResult.isSendResp : AnyAgentResult → Bool
  | .SendUserMessageResponse _ => true
  | _ => false

/-- Discriminator for the `cancelSendMessage` response variant. -/
def AnyAgentResult.isCancelResp : AnyAgentResult → Bool
  | .CancelSendMessageResponse _ => true
  | _ => false

/-- The common success/failure wrapping every generated `call` arm performs on
its handler's outcome (`schema.rs`, `handler_trait_call_req!`): a failure
becomes `INTERNAL_ERROR` with the failure's message as details, a success is
wrapped into the given response-envelope variant. -/
def wrapHandlerOutcome {α β : Type} (res : Except String α) (wrap : α → β) :
    Except Error β :=
  match res with
  | .error e => .error (ErrorCode.internalError.intoErrorWithDetails e)
  | .ok v => .ok (wrap v)

end Schema

open Schema in
/-- Claim C1: for every catalog entry of either role and every value of that
entry's request type, decoding the entry's wire method name together with the
serialized request succeeds and yields the matching envelope variant wrapping
an equal value: `from_method_and_params(into_any(r).method_name(),
serialize(r)) = Ok(into_any(r))`. -/
theorem claim_C1 :
    (∀ r : StreamAssistantMessageChunkParams,
      AnyClientRequest.fromMethodAndParams r.intoAny.methodName r.toJson = .ok r.intoAny) ∧
    (∀ r : RequestToolCallConfirmationParams,
      AnyClientRequest.fromMethodAndParams r.intoAny.methodName r.toJson = .ok r.intoAny) ∧
    (∀ r : PushToolCallParams,
      AnyClientRequest.fromMethodAndParams r.intoAny.methodName r.toJson = .ok r.intoAny) ∧
    (∀ r : UpdateToolCallParams,
      AnyClientRequest.fromMethodAndParams r.intoAny.methodName r.toJson = .ok r.intoAny) ∧
    (∀ r : InitializeParams,
      AnyAgentRequest.fromMethodAndParams r.intoAny.methodName r.toJson = .ok r.intoAny) ∧
    (∀ r : AuthenticateParams,
      AnyAgentRequest.fromMethodAndParams r.intoAny.methodName r.toJson = .ok r.intoAny) ∧
    (∀ r : SendUserMessageParams,
      AnyAgentRequest.fromMethodAndParams r.intoAny.methodName r.toJson = .ok r.intoAny) ∧
    (∀ r : CancelSendMessageParams,
      AnyAgentRequest.fromMethodAndParams r.intoAny.methodName r.toJson = .ok r.intoAny) := by
  refine ⟨fun r => ?_, fun r => ?_, fun r => ?_, fun r => ?_,
    fun r => rfl, fun r => rfl, fun r => ?_, fun r => rfl⟩
  · simp [StreamAssistantMessageChunkParams.intoAny, AnyClientRequest.methodName,
      AnyClientRequest.fromMethodAndParams, streamAssistantMessageChunkParams_roundTrip]
  · simp [RequestToolCallConfirmationParams.intoAny, AnyClientRequest.methodName,
      AnyClientRequest.fromMethodAndParams, requestToolCallConfirmationParams_roundTrip]
  · simp [PushToolCallParams.intoAny, AnyClientRequest.methodName,
      AnyClientRequest.fromMethodAndParams, pushToolCallParams_roundTrip]
  · simp [UpdateToolCallParams.intoAny, AnyClientRequest.methodName,
      AnyClientRequest.fromMethodAndParams, updateToolCallParams_roundTrip]
  · simp [SendUserMessageParams.intoAny, AnyAgentRequest.methodName,
      AnyAgentRequest.fromMethodAndParams, sendUserMessageParams_roundTrip]

open Schema in
/-- Claim C2: dispatching `into_any(r)` through the role's `call` entry point
invokes exactly the handler method declared for that catalog entry, applied
to payload `r` (or to nothing for payload-less entries), and no other handler
method: for each entry, the dispatch outcome is the declared handler's
outcome under the uniform wrapping, and any two handler implementations
agreeing on that one method produce identical dispatch outcomes regardless of
their other methods. -/
theorem claim_C2 :
    (∀ (h : Client) (r : StreamAssistantMessageChunkParams),
      h.call r.intoAny =
        wrapHandlerOutcome (h.stream_assistant_message_chunk r)
          (fun _ => .StreamAssistantMessageChunkResponse ⟨⟩)) ∧
    (∀ (h h₂ : Client) (r : StreamAssistantMessageChunkParams),
      h₂.stream_assistant_message_chunk = h.stream_assistant_message_chunk →
      h₂.call r.intoAny = h.call r.intoAny) ∧
    (∀ (h : Client) (r : RequestToolCallConfirmationParams),
      h.call r.intoAny =
        wrapHandlerOutcome (h.request_tool_call_confirmation r)
          AnyClientResult.RequestToolCallConfirmationResponse) ∧
    (∀ (h h₂ : Client) (r : RequestToolCallConfirmationParams),
      h₂.request_tool_call_confirmation = h.request_tool_call_confirmation →
      h₂.call r.intoAny = h.call r.intoAny) ∧
    (∀ (h : Client) (r : PushToolCallParams),
      h.call r.intoAny =
        wrapHandlerOutcome (h.push_tool_call r) AnyClientResult.PushToolCallResponse) ∧
    (∀ (h h₂ : Client) (r : PushToolCallParams),
      h₂.push_tool_call = h.push_tool_call → h₂.call r.intoAny = h.call r.intoAny) ∧
    (∀ (h : Client) (r : UpdateToolCallParams),
      h.call r.intoAny =
        wrapHandlerOutcome (h.update_tool_call r) (fun _ => .UpdateToolCallResponse ⟨⟩)) ∧
    (∀ (h h₂ : Client) (r : UpdateToolCallParams),
      h₂.update_tool_call = h.update_tool_call → h₂.call r.intoAny = h.call r.intoAny) ∧
    (∀ (h : Agent) (r : InitializeParams),
      h.call r.intoAny = wrapHandlerOutcome h.init AnyAgentResult.InitializeResponse) ∧
    (∀ (h h₂ : Agent) (r : InitializeParams),
      h₂.init = h.init → h₂.call r.intoAny = h.call r.intoAny) ∧
    (∀ (h : Agent) (r : AuthenticateParams),
      h.call r.intoAny =
        wrapHandlerOutcome h.authenticate (fun _ => .AuthenticateResponse ⟨⟩)) ∧
    (∀ (h h₂ : Agent) (r : AuthenticateParams),
      h₂.authenticate = h.authenticate → h₂.call r.intoAny = h.call r.intoAny) ∧
    (∀ (h : Agent) (r : SendUserMessageParams),
      h.call r.intoAny =
        wrapHandlerOutcome (h.send_user_message r) (fun _ => .SendUserMessageResponse ⟨⟩)) ∧
    (∀ (h h₂ : Agent) (r : SendUserMessageParams),
      h₂.send_user_message = h.send_user_message → h₂.call r.intoAny = h.call r.intoAny) ∧
    (∀ (h : Agent) (r : CancelSendMessageParams),
      h.call r.intoAny =
        wrapHandlerOutcome h.cancel_send_message (fun _ => .CancelSendMessageResponse ⟨⟩)) ∧
    (∀ (h h₂ : Agent) (r : CancelSendMessageParams),
      h₂.cancel_send_message = h.cancel_send_message → h₂.call r.intoAny = h.call r.intoAny) := by
  refine ⟨fun h r => ?_, fun h h₂ r he => ?_, fun h r => ?_, fun h h₂ r he => ?_,
    fun h r => ?_, fun h h₂ r he => ?_, fun h r => ?_, fun h h₂ r he => ?_,
    fun h r => ?_, fun h h₂ r he => ?_, fun h r => ?_, fun h h₂ r he => ?_,
    fun h r => ?_, fun h h₂ r he => ?_, fun h r => ?_, fun h h₂ r he => ?_⟩
  · cases hr : h.stream_assistant_message_chunk r <;>
      simp [Client.call, StreamAssistantMessageChunkParams.intoAny, wrapHandlerOutcome, hr]
  · simp [Client.call, StreamAssistantMessageChunkParams.intoAny, he]
  · cases hr : h.request_tool_call_confirmation r <;>
      simp [Client.call, RequestToolCallConfirmationParams.intoAny, wrapHandlerOutcome, hr]
  · simp [Client.call, RequestToolCallConfirmationParams.intoAny, he]
  · cases hr : h.push_tool_call r <;>
      simp [Client.call, PushToolCallParams.intoAny, wrapHandlerOutcome, hr]
  · simp [Client.call, PushToolCallParams.intoAny, he]
  · cases hr : h.update_tool_call r <;>
      simp [Client.call, UpdateToolCallParams.intoAny, wrapHandlerOutcome, hr]
  · simp [Client.call, UpdateToolCallParams.intoAny, he]
  · cases hr : h.init <;>
      simp [Agent.call, InitializeParams.intoAny, wrapHandlerOutcome, hr]
  · simp [Agent.call, InitializeParams.intoAny, he]
  · cases hr : h.authenticate <;>
      simp [Agent.call, AuthenticateParams.intoAny, wrapHandlerOutcome, hr]
  · simp [Agent.call, AuthenticateParams.intoAny, he]
  · cases hr : h.send_user_message r <;>
      simp [Agent.call, SendUserMessageParams.intoAny, wrapHandlerOutcome, hr]
  · simp [Agent.call, SendUserMessageParams.intoAny, he]
  · cases hr : h.cancel_send_message <;>
      simp [Agent.call, CancelSendMessageParams.intoAny, wrapHandlerOutcome, hr]
  · simp [Agent.call, CancelSendMessageParams.intoAny, he]

/-- Witness for claim C2 at concrete inputs: a concrete handler record
dispatched on a concrete `pushToolCall` request yields exactly the declared
handler's wrapped outcome, and a second record differing in every other
handler method dispatches identically. -/
theorem claim_C2_witness :
    (Schema.Client.mk (fun _ => .ok ()) (fun _ => .error "no")
        (fun p => .ok ⟨⟨p.label.length⟩⟩) (fun _ => .error "no")).call
      (Schema.PushToolCallParams.intoAny ⟨"ab", .Folder, none⟩) =
      .ok (.PushToolCallResponse ⟨⟨2⟩⟩) ∧
    (Schema.Client.mk (fun _ => .error "x") (fun _ => .ok ⟨⟨9⟩, .Reject⟩)
        (fun p => .ok ⟨⟨p.label.length⟩⟩) (fun _ => .ok ())).call
      (Schema.PushToolCallParams.intoAny ⟨"ab", .Folder, none⟩) =
      (Schema.Client.mk (fun _ => .ok ()) (fun _ => .error "no")
        (fun p => .ok ⟨⟨p.label.length⟩⟩) (fun _ => .error "no")).call
      (Schema.PushToolCallParams.intoAny ⟨"ab", .Folder, none⟩) := by
  constructor
  · have h := claim_C2.2.2.2.2.1
      (Schema.Client.mk (fun _ => .ok ()) (fun _ => .error "no")
        (fun p => .ok ⟨⟨p.label.length⟩⟩) (fun _ => .error "no"))
      ⟨"ab", .Folder, none⟩
    exact h.trans rfl
  · exact claim_C2.2.2.2.2.2.1
      (Schema.Client.mk (fun _ => .ok ()) (fun _ => .error "no")
        (fun p => .ok ⟨⟨p.label.length⟩⟩) (fun _ => .error "no"))
      (Schema.Client.mk (fun _ => .error "x") (fun _ => .ok ⟨⟨9⟩, .Reject⟩)
        (fun p => .ok ⟨⟨p.label.length⟩⟩) (fun _ => .ok ()))
      ⟨"ab", .Folder, none⟩ rfl

open Schema in
/-- Claim C3: when the invoked handler fails with message `e`, `call` returns
`Err` of an `INTERNAL_ERROR` whose details are exactly the handler failure's
description `e` (so the details contain it), for every catalog entry; the
failure is never propagated unwrapped and no other error kind is produced. -/
theorem claim_C3 :
    (∀ (h : Client) (r : StreamAssistantMessageChunkParams) (e : String),
      h.stream_assistant_message_chunk r = .error e →
      h.call r.intoAny = .error ⟨.internalError, some e⟩) ∧
    (∀ (h : Client) (r : RequestToolCallConfirmationParams) (e : String),
      h.request_tool_call_confirmation r = .error e →
      h.call r.intoAny = .error ⟨.internalError, some e⟩) ∧
    (∀ (h : Client) (r : PushToolCallParams) (e : String),
      h.push_tool_call r = .error e →
      h.call r.intoAny = .error ⟨.internalError, some e⟩) ∧
    (∀ (h : Client) (r : UpdateToolCallParams) (e : String),
      h.update_tool_call r = .error e →
      h.call r.intoAny = .error ⟨.internalError, some e⟩) ∧
    (∀ (h : Agent) (r : InitializeParams) (e : String),
      h.init = .error e → h.call r.intoAny = .error ⟨.internalError, some e⟩) ∧
    (∀ (h : Agent) (r : AuthenticateParams) (e : String),
      h.authenticate = .error e → h.call r.intoAny = .error ⟨.internalError, some e⟩) ∧
    (∀ (h : Agent) (r : SendUserMessageParams) (e : String),
      h.send_user_message r = .error e →
      h.call r.intoAny = .error ⟨.internalError, some e⟩) ∧
    (∀ (h : Agent) (r : CancelSendMessageParams) (e : String),
      h.cancel_send_message = .error e →
      h.call r.intoAny = .error ⟨.internalError, some e⟩) := by
  refine ⟨fun h r e he => ?_, fun h r e he => ?_, fun h r e he => ?_, fun h r e he => ?_,
    fun h r e he => ?_, fun h r e he => ?_, fun h r e he => ?_, fun h r e he => ?_⟩
  · simp [Client.call, StreamAssistantMessageChunkParams.intoAny, he,
      ErrorCode.intoErrorWithDetails]
  · simp [Client.call, RequestToolCallConfirmationParams.intoAny, he,
      ErrorCode.intoErrorWithDetails]
  · simp [Client.call, PushToolCallParams.intoAny, he, ErrorCode.intoErrorWithDetails]
  · simp [Client.call, UpdateToolCallParams.intoAny, he, ErrorCode.intoErrorWithDetails]
  · simp [Agent.call, InitializeParams.intoAny, he, ErrorCode.intoErrorWithDetails]
  · simp [Agent.call, AuthenticateParams.intoAny, he, ErrorCode.intoErrorWithDetails]
  · simp [Agent.call, SendUserMessageParams.intoAny, he, ErrorCode.intoErrorWithDetails]
  · simp [Agent.call, CancelSendMessageParams.intoAny, he, ErrorCode.intoErrorWithDetails]

/-- Witness for claim C3 at concrete inputs: an agent whose `send_user_message`
handler fails with "boom" makes `call` return `INTERNAL_ERROR` with details
"boom", and a client whose `push_tool_call` handler fails with "nope" makes
`call` return `INTERNAL_ERROR` with details "nope". -/
theorem claim_C3_witness :
    (Schema.Agent.mk (.ok ⟨true⟩) (.ok ()) (fun _ => .error "boom") (.ok ())).call
      (Schema.SendUserMessageParams.intoAny ⟨⟨[]⟩⟩) =
      .error ⟨.internalError, some "boom"⟩ ∧
    (Schema.Client.mk (fun _ => .ok ()) (fun _ => .ok ⟨⟨0⟩, .Allow⟩)
        (fun _ => .error "nope") (fun _ => .ok ())).call
      (Schema.PushToolCallParams.intoAny ⟨"t", .Terminal, none⟩) =
      .error ⟨.internalError, some "nope"⟩ := by
  constructor
  · exact claim_C3.2.2.2.2.2.2.1
      (Schema.Agent.mk (.ok ⟨true⟩) (.ok ()) (fun _ => .error "boom") (.ok ()))
      ⟨⟨[]⟩⟩ "boom" rfl
  · exact claim_C3.2.2.1
      (Schema.Client.mk (fun _ => .ok ()) (fun _ => .ok ⟨⟨0⟩, .Allow⟩)
        (fun _ => .error "nope") (fun _ => .ok ()))
      ⟨"t", .Terminal, none⟩ "nope" rfl

open Schema in
/-- Claim C4: for every method string not byte-for-byte equal to one of the
role's declared wire method strings (lookup is exact-match and
case-sensitive, so any case variant of a declared name qualifies) and every
raw payload, both `from_method_and_params` and
`response_from_method_and_result` return `Err(METHOD_NOT_FOUND)`; being total
Lean functions, they cannot panic. -/
theorem claim_C4 :
    (∀ (m : String) (p : Json), m ∉ CLIENT_METHODS.map Method.name →
      AnyClientRequest.fromMethodAndParams m p = .error ErrorCode.methodNotFound.intoError ∧
      AnyClientRequest.responseFromMethodAndResult m p =
        .error ErrorCode.methodNotFound.intoError) ∧
    (∀ (m : String) (p : Json), m ∉ AGENT_METHODS.map Method.name →
      AnyAgentRequest.fromMethodAndParams m p = .error ErrorCode.methodNotFound.intoError ∧
      AnyAgentRequest.responseFromMethodAndResult m p =
        .error ErrorCode.methodNotFound.intoError) := by
  constructor
  · intro m p hm
    simp [CLIENT_METHODS, Method.name] at hm
    obtain ⟨h1, h2, h3, h4⟩ := hm
    exact ⟨by simp [AnyClientRequest.fromMethodAndParams, h1, h2, h3, h4],
      by simp [AnyClientRequest.responseFromMethodAndResult, h1, h2, h3, h4]⟩
  · intro m p hm
    simp [AGENT_METHODS, Method.name] at hm
    obtain ⟨h1, h2, h3, h4⟩ := hm
    exact ⟨by simp [AnyAgentRequest.fromMethodAndParams, h1, h2, h3, h4],
      by simp [AnyAgentRequest.responseFromMethodAndResult, h1, h2, h3, h4]⟩

/-- Witness for claim C4 at a concrete input: the case variant "Initialize" of
the declared method "initialize" is unknown to both roles and both decode
entry points of each role report `METHOD_NOT_FOUND` on it. -/
theorem claim_C4_witness :
    Schema.AnyClientRequest.fromMethodAndParams "Initialize" (Json.obj []) =
      .error ⟨.methodNotFound, none⟩ ∧
    Schema.AnyClientRequest.responseFromMethodAndResult "Initialize" (Json.obj []) =
      .error ⟨.methodNotFound, none⟩ ∧
    Schema.AnyAgentRequest.fromMethodAndParams "Initialize" (Json.obj []) =
      .error ⟨.methodNotFound, none⟩ ∧
    Schema.AnyAgentRequest.responseFromMethodAndResult "Initialize" (Json.obj []) =
      .error ⟨.methodNotFound, none⟩ := by
  have hc := claim_C4.1 "Initialize" (Json.obj []) (by decide)
  have ha := claim_C4.2 "Initialize" (Json.obj []) (by decide)
  exact ⟨hc.1, hc.2, ha.1, ha.2⟩

open Schema in
/-- Claim C5: for every catalog entry, `response_from_any` applied to the
response-envelope variant belonging to that entry returns `Ok` of the entry's
specific response value (`Ok(())` for payload-less entries), and applied to
an envelope of any other variant returns `Err(INTERNAL_ERROR)` with details
"Unexpected Response"; a mismatched variant is never a success. -/
theorem claim_C5 :
    (∀ r, StreamAssistantMessageChunkParams.responseFromAny
      (.StreamAssistantMessageChunkResponse r) = .ok ()) ∧
    (∀ a, a.isStreamChunkResp = false →
      StreamAssistantMessageChunkParams.responseFromAny a =
        .error ⟨.internalError, some "Unexpected Response"⟩) ∧
    (∀ r, RequestToolCallConfirmationParams.responseFromAny
      (.RequestToolCallConfirmationResponse r) = .ok r) ∧
    (∀ a, a.isConfirmationResp = false →
      RequestToolCallConfirmationParams.responseFromAny a =
        .error ⟨.internalError, some "Unexpected Response"⟩) ∧
    (∀ r, PushToolCallParams.responseFromAny (.PushToolCallResponse r) = .ok r) ∧
    (∀ a, a.isPushResp = false →
      PushToolCallParams.responseFromAny a =
        .error ⟨.internalError, some "Unexpected Response"⟩) ∧
    (∀ r, UpdateToolCallParams.responseFromAny (.UpdateToolCallResponse r) = .ok ()) ∧
    (∀ a, a.isUpdateResp = false →
      UpdateToolCallParams.responseFromAny a =
        .error ⟨.internalError, some "Unexpected Response"⟩) ∧
    (∀ r, InitializeParams.responseFromAny (.InitializeResponse r) = .ok r) ∧
    (∀ a, a.isInitResp = false →
      InitializeParams.responseFromAny a =
        .error ⟨.internalError, some "Unexpected Response"⟩) ∧
    (∀ r, AuthenticateParams.responseFromAny (.AuthenticateResponse r) = .ok ()) ∧
    (∀ a, a.isAuthResp = false →
      AuthenticateParams.responseFromAny a =
        .error ⟨.internalError, some "Unexpected Response"⟩) ∧
    (∀ r, SendUserMessageParams.responseFromAny (.SendUserMessageResponse r) = .ok ()) ∧
    (∀ a, a.isSendResp = false →
      SendUserMessageParams.responseFromAny a =
        .error ⟨.internalError, some "Unexpected Response"⟩) ∧
    (∀ r, CancelSendMessageParams.responseFromAny (.CancelSendMessageResponse r) = .ok ()) ∧
    (∀ a, a.isCancelResp = false →
      CancelSendMessageParams.responseFromAny a =
        .error ⟨.internalError, some "Unexpected Response"⟩) := by
  refine ⟨fun r => rfl, fun a ha => ?_, fun r => rfl, fun a ha => ?_,
    fun r => rfl, fun a ha => ?_, fun r => rfl, fun a ha => ?_,
    fun r => rfl, fun a ha => ?_, fun r => rfl, fun a ha => ?_,
    fun r => rfl, fun a ha => ?_, fun r => rfl, fun a ha => ?_⟩
  · cases a <;> simp_all [AnyClientResult.isStreamChunkResp,
      StreamAssistantMessageChunkParams.responseFromAny, ErrorCode.intoErrorWithDetails]
  · cases a <;> simp_all [AnyClientResult.isConfirmationResp,
      RequestToolCallConfirmationParams.responseFromAny, ErrorCode.intoErrorWithDetails]
  · cases a <;> simp_all [AnyClientResult.isPushResp,
      PushToolCallParams.responseFromAny, ErrorCode.intoErrorWithDetails]
  · cases a <;> simp_all [AnyClientResult.isUpdateResp,
      UpdateToolCallParams.responseFromAny, ErrorCode.intoErrorWithDetails]
  · cases a <;> simp_all [AnyAgentResult.isInitResp,
      InitializeParams.responseFromAny, ErrorCode.intoErrorWithDetails]
  · cases a <;> simp_all [AnyAgentResult.isAuthResp,
      AuthenticateParams.responseFromAny, ErrorCode.intoErrorWithDetails]
  · cases a <;> simp_all [AnyAgentResult.isSendResp,
      SendUserMessageParams.responseFromAny, ErrorCode.intoErrorWithDetails]
  · cases a <;> simp_all [AnyAgentResult.isCancelResp,
      CancelSendMessageParams.responseFromAny, ErrorCode.intoErrorWithDetails]

/-- Witness for claim C5 at concrete inputs: the `pushToolCall` correlation
unwraps its own variant's payload, and rejects an `updateToolCall` response
envelope with the "Unexpected Response" internal error. -/
theorem claim_C5_witness :
    Schema.PushToolCallParams.responseFromAny (.PushToolCallResponse ⟨⟨42⟩⟩) =
      .ok ⟨⟨42⟩⟩ ∧
    Schema.PushToolCallParams.responseFromAny (.UpdateToolCallResponse ⟨⟩) =
      .error ⟨.internalError, some "Unexpected Response"⟩ := by
  exact ⟨claim_C5.2.2.2.2.1 ⟨⟨42⟩⟩,
    claim_C5.2.2.2.2.2.1 (.UpdateToolCallResponse ⟨⟩) rfl⟩

/-- Counterexample to claim C6: the payload-less `initialize` request type is a
Rust unit struct, and serde_json serializes a unit struct as the JSON literal
`null`, not as the empty object `{}`. -/
theorem counterexample_C6 :
    Schema.InitializeParams.toJson ⟨⟩ = Json.null ∧
    (Schema.InitializeParams.toJson ⟨⟩).isObj = false :=
  ⟨rfl, rfl⟩

open Schema in
/-- Claim C6 as amended: every payload-less request/response type of either
role (`initialize`, `authenticate`, `cancelSendMessage` requests;
`authenticate`, `sendUserMessage`, `cancelSendMessage`,
`streamAssistantMessageChunk`, `updateToolCall` responses) is a unit struct
and serializes as the JSON literal `null` — not as the empty object `{}` —
and the untagged envelope serializes such a variant identically, its tag
never appearing on the wire. -/
theorem claim_C6 :
    (∀ r : InitializeParams, r.toJson = Json.null) ∧
    (∀ r : AuthenticateParams, r.toJson = Json.null) ∧
    (∀ r : CancelSendMessageParams, r.toJson = Json.null) ∧
    (∀ r : AuthenticateResponse, r.toJson = Json.null) ∧
    (∀ r : SendUserMessageResponse, r.toJson = Json.null) ∧
    (∀ r : CancelSendMessageResponse, r.toJson = Json.null) ∧
    (∀ r : StreamAssistantMessageChunkResponse, r.toJson = Json.null) ∧
    (∀ r : UpdateToolCallResponse, r.toJson = Json.null) ∧
    (∀ r : InitializeParams, AnyAgentRequest.toJson r.intoAny = Json.null) ∧
    (∀ r : AuthenticateParams, AnyAgentRequest.toJson r.intoAny = Json.null) ∧
    (∀ r : CancelSendMessageParams, AnyAgentRequest.toJson r.intoAny = Json.null) ∧
    (∀ r : InitializeParams, r.toJson.isObj = false) :=
  ⟨fun _ => rfl, fun _ => rfl, fun _ => rfl, fun _ => rfl, fun _ => rfl, fun _ => rfl,
   fun _ => rfl, fun _ => rfl, fun _ => rfl, fun _ => rfl, fun _ => rfl, fun _ => rfl⟩

open Tool in
/-- Claim C7: merging a `ToolCallUpdate` whose fields carry only `status` into
a prior `ToolCall` with the same id yields that record with only `status`
replaced — title, kind, content, locations, raw input and raw output
unchanged — and a present `content` or `locations` field replaces the prior
list wholesale.  The merge itself is modelled from the spec (§3), since the
function applying `ToolCallUpdateFields` is not among the provided sources. -/
theorem claim_C7 :
    (∀ (t : ToolCall) (s : ToolCallStatus),
      t.applyUpdate ⟨t.id, { ToolCallUpdateFields.empty with status := some s }⟩ =
        { t with status := s }) ∧
    (∀ (t : ToolCall) (i : ToolCallId) (c : List ToolCallContent),
      (t.applyUpdate ⟨i, { ToolCallUpdateFields.empty with content := some c }⟩).content
        = c) ∧
    (∀ (t : ToolCall) (i : ToolCallId) (l : List ToolCallLocation),
      (t.applyUpdate ⟨i, { ToolCallUpdateFields.empty with locations := some l }⟩).locations
        = l) :=
  ⟨fun _ _ => rfl, fun _ _ _ => rfl, fun _ _ _ => rfl⟩

open Content in
/-- Claim C8: a JSON object that is Text-resource shaped — string fields
`text` and `uri` present exactly once, a well-formed optional `mimeType`, and
no `blob` field — decodes to the `TextResourceContents` variant of the
untagged embedded-resource body; a Blob-resource shaped object (`blob` and
`uri`, no `text`) decodes to the `BlobResourceContents` variant; and each
variant's serialization decodes back to an equal value. -/
theorem claim_C8 :
    (∀ (fs : List (String × Json)) (t u : String) (mtf : Option Json) (mt : Option String),
      getField fs "mimeType" = .ok mtf → decodeOptString mtf = .ok mt →
      getField fs "text" = .ok (some (.str t)) →
      getField fs "uri" = .ok (some (.str u)) →
      getField fs "blob" = .ok none →
      EmbeddedResourceResource.fromJson (.obj fs) =
        .ok (.TextResourceContents ⟨mt, t, u⟩)) ∧
    (∀ (fs : List (String × Json)) (b u : String) (mtf : Option Json) (mt : Option String),
      getField fs "mimeType" = .ok mtf → decodeOptString mtf = .ok mt →
      getField fs "blob" = .ok (some (.str b)) →
      getField fs "uri" = .ok (some (.str u)) →
      getField fs "text" = .ok none →
      EmbeddedResourceResource.fromJson (.obj fs) =
        .ok (.BlobResourceContents ⟨b, mt, u⟩)) ∧
    (∀ v : EmbeddedResourceResource, EmbeddedResourceResource.fromJson v.toJson = .ok v) := by
  refine ⟨fun fs t u mtf mt hmt hmt2 ht hu hb => ?_,
    fun fs b u mtf mt hmt hmt2 hb hu ht => ?_, fun v => ?_⟩
  · simp [EmbeddedResourceResource.fromJson, TextResourceContents.fromJson,
      hmt, hmt2, ht, hu, fieldReq, decodeString]
  · simp [EmbeddedResourceResource.fromJson, TextResourceContents.fromJson,
      BlobResourceContents.fromJson, hmt, hmt2, ht, hu, hb, fieldReq, decodeString]
  · cases v with
    | TextResourceContents v => exact textResourceContents_roundTrip v
    | BlobResourceContents v => exact blobResourceContents_roundTrip v

/-- Witness for claim C8 at concrete inputs: a Text-shaped object and a
Blob-shaped object decode to their respective variants. -/
theorem claim_C8_witness :
    Content.EmbeddedResourceResource.fromJson
      (Json.obj [("text", Json.str "hello"), ("uri", Json.str "file:///a.txt")]) =
      .ok (.TextResourceContents ⟨none, "hello", "file:///a.txt"⟩) ∧
    Content.EmbeddedResourceResource.fromJson
      (Json.obj [("blob", Json.str "aGk="), ("uri", Json.str "file:///a.bin")]) =
      .ok (.BlobResourceContents ⟨"aGk=", none, "file:///a.bin"⟩) :=
  ⟨claim_C8.1 [("text", Json.str "hello"), ("uri", Json.str "file:///a.txt")]
      "hello" "file:///a.txt" none none rfl rfl rfl rfl rfl,
   claim_C8.2.1 [("blob", Json.str "aGk="), ("uri", Json.str "file:///a.bin")]
      "aGk=" "file:///a.bin" none none rfl rfl rfl rfl rfl⟩

/-- Counterexample to claim C9: an embedded-resource body carrying `text`,
`blob` and `uri` together satisfies both variant shapes at once, yet decoding
does not fail with a ParseError — the serde untagged decoder tries the
variants in declaration order and the Text-resource attempt succeeds because
the extra `blob` field is ignored like any unknown field. -/
theorem counterexample_C9 :
    Content.EmbeddedResourceResource.fromJson
      (Json.obj [("text", Json.str "t"), ("blob", Json.str "b"), ("uri", Json.str "u")]) =
      .ok (.TextResourceContents ⟨none, "t", "u"⟩) ∧
    (Content.EmbeddedResourceResource.fromJson
      (Json.obj [("text", Json.str "t"), ("blob", Json.str "b"),
        ("uri", Json.str "u")])).isOk = true :=
  ⟨rfl, rfl⟩

open Content in
/-- Claim C9 as amended: a payload that structurally satisfies both variants of
the untagged embedded-resource union at once (string `text`, `blob` and `uri`
fields together, with a well-formed optional `mimeType`) decodes
deterministically to the first declared variant, `TextResourceContents` —
never to an error and never to the Blob variant; ambiguity is resolved by
declaration order, not rejected as a ParseError. -/
theorem claim_C9 :
    ∀ (fs : List (String × Json)) (t b u : String) (mtf : Option Json) (mt : Option String),
      getField fs "mimeType" = .ok mtf → decodeOptString mtf = .ok mt →
      getField fs "text" = .ok (some (.str t)) →
      getField fs "blob" = .ok (some (.str b)) →
      getField fs "uri" = .ok (some (.str u)) →
      EmbeddedResourceResource.fromJson (.obj fs) =
        .ok (.TextResourceContents ⟨mt, t, u⟩) := by
  intro fs t b u mtf mt hmt hmt2 ht hb hu
  simp [EmbeddedResourceResource.fromJson, TextResourceContents.fromJson,
    hmt, hmt2, ht, hu, fieldReq, decodeString]

/-- Witness for claim C9 at a concrete input: the doubly-shaped object with
`text`, `blob` and `uri` resolves to the Text-resource variant. -/
theorem claim_C9_witness :
    Content.EmbeddedResourceResource.fromJson
      (Json.obj [("mimeType", Json.str "text/plain"), ("text", Json.str "t"),
        ("blob", Json.str "b"), ("uri", Json.str "u")]) =
      .ok (.TextResourceContents ⟨some "text/plain", "t", "u"⟩) :=
  claim_C9 [("mimeType", Json.str "text/plain"), ("text", Json.str "t"),
      ("blob", Json.str "b"), ("uri", Json.str "u")]
    "t" "b" "u" (some (Json.str "text/plain")) (some "text/plain") rfl rfl rfl rfl rfl

/-- Claim C10: for every payload-less catalog entry (`initialize`,
`authenticate`, `cancelSendMessage`, all of the Agent role) and every raw
JSON payload whatsoever, `from_method_and_params` with that entry's method
name returns `Ok` of the entry's marker variant: the payload is never
inspected, so no payload can make decoding of such a method fail. -/
theorem claim_C10 :
    ∀ p : Json,
      Schema.AnyAgentRequest.fromMethodAndParams "initialize" p =
        .ok (.InitializeParams ⟨⟩) ∧
      Schema.AnyAgentRequest.fromMethodAndParams "authenticate" p =
        .ok (.AuthenticateParams ⟨⟩) ∧
      Schema.AnyAgentRequest.fromMethodAndParams "cancelSendMessage" p =
        .ok (.CancelSendMessageParams ⟨⟩) :=
  fun _ => ⟨rfl, rfl, rfl⟩

end Acp
